import Mathlib

/-!
Shallow embedding of the mortgage-analysis repository's financial core
(`mortgage_calculator.py`, `mortgage_scenario.py`, `mortgage_comparison.py`)
over exact rational arithmetic, together with theorems settling the
specification claims about it.

Python floats are modelled as `ℚ`; Python's `float('inf')` sentinel for the
refinance break-even result is modelled by a dedicated constructor; Python's
`None` is modelled by `Option`; a list indexing that could raise `IndexError`
is modelled by `List.get?` returning `none` in the error case.
-/

namespace mortgage_calculator

/-- One row of the amortization schedule, mirroring the dictionary appended by
`generate_amortization_schedule` in `mortgage_calculator.py`: keys
`payment_num`, `payment`, `principal`, `interest`, `remaining_balance`. -/
structure PaymentRecord where
  payment_num : ℕ
  payment : ℚ
  principal : ℚ
  interest : ℚ
  remaining_balance : ℚ
deriving DecidableEq

/-- Embeds `calculate_monthly_payment(principal, annual_interest_rate, term_years)`
from `mortgage_calculator.py`: monthly rate is the annual percentage divided by
100 and by 12; with a zero monthly rate the payment is `principal / num_payments`,
otherwise the annuity formula
`principal * (r * (1+r)^n) / ((1+r)^n - 1)`. -/
def calculate_monthly_payment (principal annual_interest_rate : ℚ) (term_years : ℕ) : ℚ :=
  let monthly_rate := annual_interest_rate / 100 / 12
  let num_payments := term_years * 12
  if monthly_rate = 0 then
    principal / (num_payments : ℚ)
  else
    principal * (monthly_rate * (1 + monthly_rate) ^ num_payments) /
      ((1 + monthly_rate) ^ num_payments - 1)

/-- Embeds the `for payment_num in range(1, num_payments + 1)` loop body of
`generate_amortization_schedule`. The recursion is on the number of payments
still to emit; `remaining = 0` inside the successor case means the current
payment is the last one (`payment_num == num_payments` in the source), where the
residual balance is absorbed into the principal portion and the stored balance
is forced to `0`. Record fields are in the order
payment_num, payment, principal, interest, remaining_balance. -/
def schedule_loop (monthly_payment monthly_rate : ℚ) (payment_num : ℕ)
    (remaining_balance : ℚ) : ℕ → List PaymentRecord
  | 0 => []
  | remaining + 1 =>
    let interest_payment := remaining_balance * monthly_rate
    let principal_payment := monthly_payment - interest_payment
    let new_balance := remaining_balance - principal_payment
    if remaining = 0 then
      [⟨payment_num, monthly_payment, principal_payment + new_balance, interest_payment, 0⟩]
    else
      ⟨payment_num, monthly_payment, principal_payment, interest_payment, new_balance⟩ ::
        schedule_loop monthly_payment monthly_rate (payment_num + 1) new_balance remaining

/-- Embeds `generate_amortization_schedule(principal, annual_interest_rate, term_years)`
from `mortgage_calculator.py`: computes the monthly rate, the number of
payments and the monthly payment, then runs the schedule loop starting from
payment number 1 with the full principal outstanding. -/
def generate_amortization_schedule (principal annual_interest_rate : ℚ)
    (term_years : ℕ) : List PaymentRecord :=
  let monthly_rate := annual_interest_rate / 100 / 12
  let num_payments := term_years * 12
  let monthly_payment := calculate_monthly_payment principal annual_interest_rate term_years
  schedule_loop monthly_payment monthly_rate 1 principal num_payments

/-- Embeds `calculate_total_interest(principal, annual_interest_rate, term_years)`
from `mortgage_calculator.py`: `monthly_payment * term_years * 12 - principal`. -/
def calculate_total_interest (principal annual_interest_rate : ℚ) (term_years : ℕ) : ℚ :=
  calculate_monthly_payment principal annual_interest_rate term_years *
    (term_years : ℚ) * 12 - principal

/-- The schedule-sum definition of total interest that the specification takes
as canonical: the sum of the `interest` field across the generated schedule.
This is the comparison point for the refinement claim about
`calculate_total_interest`. -/
def total_interest_schedule_sum (principal annual_interest_rate : ℚ)
    (term_years : ℕ) : ℚ :=
  ((generate_amortization_schedule principal annual_interest_rate term_years).map
    PaymentRecord.interest).sum

/-- Result of `calculate_refinance_savings`: the Python float stored under
`break_even_months` is either a finite number or the literal `float('inf')`
produced when there are no monthly savings. -/
inductive BreakEvenMonths where
  | months (value : ℚ)
  | infinity
deriving DecidableEq

/-- The dictionary returned by `calculate_refinance_savings` in
`mortgage_calculator.py`, with keys `current_payment`, `new_payment`,
`monthly_savings`, `lifetime_savings`, `break_even_months`. -/
structure RefinanceResult where
  current_payment : ℚ
  new_payment : ℚ
  monthly_savings : ℚ
  lifetime_savings : ℚ
  break_even_months : BreakEvenMonths
deriving DecidableEq

/-- Embeds `calculate_refinance_savings(current_principal, current_rate,
current_term_remaining, new_rate, new_term, closing_costs)` from
`mortgage_calculator.py`. The result fields are in the order current_payment,
new_payment, monthly_savings, lifetime_savings, break_even_months; the
`break_even_months` field is `closing_costs / monthly_savings` when
`monthly_savings > 0` and the literal `float('inf')` otherwise. -/
def calculate_refinance_savings (current_principal current_rate : ℚ)
    (current_term_remaining : ℕ) (new_rate : ℚ) (new_term : ℕ)
    (closing_costs : ℚ) : RefinanceResult :=
  let current_payment := calculate_monthly_payment current_principal current_rate
    current_term_remaining
  let new_payment := calculate_monthly_payment current_principal new_rate new_term
  let current_total := current_payment * (current_term_remaining : ℚ) * 12
  let new_total := new_payment * (new_term : ℚ) * 12
  let monthly_savings := current_payment - new_payment
  let lifetime_savings := current_total - new_total - closing_costs
  let break_even_months :=
    if monthly_savings > 0 then BreakEvenMonths.months (closing_costs / monthly_savings)
    else BreakEvenMonths.infinity
  ⟨current_payment, new_payment, monthly_savings, lifetime_savings, break_even_months⟩

/-- The running balance of the schedule loop: starting from `b`, each of `k`
steps subtracts the principal portion `M - b * r` of that payment. -/
def bal_iter (M r : ℚ) : ℕ → ℚ → ℚ
  | 0, b => b
  | k + 1, b => bal_iter M r k (b - (M - b * r))

end mortgage_calculator

/-- Embeds the state of a `MortgageScenario` object from `mortgage_scenario.py`
after `__init__` has run: all numeric fields coerced to floats (here `ℚ`),
`term_years` coerced to int, `reduced_rate` optional (`None` ↦ `none`). The
`creation_date` timestamp is omitted: no claim or computation depends on it. -/
structure MortgageScenario where
  name : String
  loan_amount : ℚ
  interest_rate : ℚ
  term_years : ℕ
  down_payment : ℚ
  property_value : ℚ
  points_paid : ℚ
  reduced_rate : Option ℚ
deriving DecidableEq

/-- Embeds the `__init__` defaulting of `property_value` in
`mortgage_scenario.py`: when the caller passes `None`, the stored property
value is `loan_amount + down_payment`; otherwise it is the value passed. -/
def MortgageScenario.init (name : String) (loan_amount interest_rate : ℚ)
    (term_years : ℕ) (down_payment : ℚ) (property_value : Option ℚ)
    (points_paid : ℚ) (reduced_rate : Option ℚ) : MortgageScenario :=
  ⟨name, loan_amount, interest_rate, term_years, down_payment,
    property_value.getD (loan_amount + down_payment), points_paid, reduced_rate⟩

/-- The effective rate used throughout `mortgage_scenario.py`:
`self.reduced_rate if self.reduced_rate is not None else self.interest_rate`. -/
def MortgageScenario.effective_rate (s : MortgageScenario) : ℚ :=
  s.reduced_rate.getD s.interest_rate

/-- Embeds the method `MortgageScenario.calculate_monthly_payment`: the module
function applied to the loan amount, the effective rate and the term. -/
def MortgageScenario.calculate_monthly_payment (s : MortgageScenario) : ℚ :=
  mortgage_calculator.calculate_monthly_payment s.loan_amount s.effective_rate s.term_years

/-- Embeds the method `MortgageScenario.calculate_total_interest`: the module
function applied to the loan amount, the effective rate and the term. -/
def MortgageScenario.calculate_total_interest (s : MortgageScenario) : ℚ :=
  mortgage_calculator.calculate_total_interest s.loan_amount s.effective_rate s.term_years

/-- Embeds the method `MortgageScenario.calculate_total_cost`:
`loan_amount + total_interest + points_cost` with
`points_cost = points_paid / 100 * loan_amount`. -/
def MortgageScenario.calculate_total_cost (s : MortgageScenario) : ℚ :=
  s.loan_amount + s.calculate_total_interest + s.points_paid / 100 * s.loan_amount

/-- Embeds the method `MortgageScenario.calculate_equity_at_year(year)` from
`mortgage_scenario.py`. `year <= 0` returns the down payment;
`year > term_years` returns the property value; otherwise the schedule is
generated at the effective rate and indexed at
`min(year * 12, len(schedule)) - 1`. The indexing is modelled with
`List.get?`: a `none` result stands for the `IndexError` the Python lookup
would raise (shown elsewhere to be unreachable). -/
def MortgageScenario.calculate_equity_at_year (s : MortgageScenario) (year : ℤ) : Option ℚ :=
  if year ≤ 0 then
    some s.down_payment
  else if (s.term_years : ℤ) < year then
    some s.property_value
  else
    let schedule := mortgage_calculator.generate_amortization_schedule s.loan_amount
      s.effective_rate s.term_years
    let payment_index := min (year.toNat * 12) schedule.length - 1
    (schedule.get? payment_index).map
      (fun rec => s.down_payment + (s.loan_amount - rec.remaining_balance))

/-- Embeds the method `MortgageScenario.calculate_break_even_point` from
`mortgage_scenario.py`. Returns `None` when no points were paid, no reduced
rate is set, or the reduced rate does not strictly lower the nominal rate;
otherwise the monthly savings of the reduced-rate payment over the
nominal-rate payment must be positive, and the result is
`points_cost / monthly_savings` with `points_cost = points_paid / 100 * loan_amount`. -/
def MortgageScenario.calculate_break_even_point (s : MortgageScenario) : Option ℚ :=
  if s.points_paid = 0 then none
  else
    match s.reduced_rate with
    | none => none
    | some rr =>
      if s.interest_rate ≤ rr then none
      else
        let monthly_payment_with_points :=
          mortgage_calculator.calculate_monthly_payment s.loan_amount rr s.term_years
        let monthly_payment_without_points :=
          mortgage_calculator.calculate_monthly_payment s.loan_amount s.interest_rate
            s.term_years
        let monthly_savings := monthly_payment_without_points - monthly_payment_with_points
        if monthly_savings ≤ 0 then none
        else some (s.points_paid / 100 * s.loan_amount / monthly_savings)

namespace mortgage_comparison

/-- The dictionary built by `compare_scenarios` in `mortgage_comparison.py`
when the input list is non-empty: the `scenarios` name list plus the seven
metric lists under the `metrics` key, each appended to once per scenario in
input order. Fields are in the order scenarios, monthly_payment,
total_interest, total_cost, equity_5yr, equity_10yr, equity_15yr,
break_even_point. -/
structure ComparisonResult where
  scenarios : List String
  monthly_payment : List ℚ
  total_interest : List ℚ
  total_cost : List ℚ
  equity_5yr : List (Option ℚ)
  equity_10yr : List (Option ℚ)
  equity_15yr : List (Option ℚ)
  break_even_point : List (Option ℚ)

/-- The two shapes `compare_scenarios` can return: the ordinary error
dictionary `{"error": msg}` for an empty input, or the comparison dictionary. -/
inductive ComparisonOutput where
  | error (msg : String)
  | ok (result : ComparisonResult)

/-- Embeds `compare_scenarios(scenarios)` from `mortgage_comparison.py`: an
empty input returns the ordinary value `{"error": "No scenarios provided"}`
(no exception is raised anywhere in the function); otherwise each metric list
collects the per-scenario values in input order. -/
def compare_scenarios (scenarios : List MortgageScenario) : ComparisonOutput :=
  if scenarios = [] then
    ComparisonOutput.error "No scenarios provided"
  else
    ComparisonOutput.ok
      ⟨scenarios.map MortgageScenario.name,
       scenarios.map MortgageScenario.calculate_monthly_payment,
       scenarios.map MortgageScenario.calculate_total_interest,
       scenarios.map MortgageScenario.calculate_total_cost,
       scenarios.map (fun s => s.calculate_equity_at_year 5),
       scenarios.map (fun s => s.calculate_equity_at_year 10),
       scenarios.map (fun s => s.calculate_equity_at_year 15),
       scenarios.map MortgageScenario.calculate_break_even_point⟩

end mortgage_comparison

namespace mortgage_calculator

/-! Structural lemmas about the schedule loop. -/

theorem schedule_loop_length (M r : ℚ) :
    ∀ (remaining payment_num : ℕ) (bal : ℚ),
      (schedule_loop M r payment_num bal remaining).length = remaining := by
  intro remaining
  induction remaining with
  | zero => intro p b; rfl
  | succ k ih =>
    intro p b
    by_cases hk : k = 0
    · subst hk; simp [schedule_loop]
    · simp [schedule_loop, hk, ih]

theorem schedule_loop_map_payment_num (M r : ℚ) :
    ∀ (remaining payment_num : ℕ) (bal : ℚ),
      (schedule_loop M r payment_num bal remaining).map PaymentRecord.payment_num =
        List.range' payment_num remaining := by
  intro remaining
  induction remaining with
  | zero => intro p b; rfl
  | succ k ih =>
    intro p b
    by_cases hk : k = 0
    · subst hk; simp [schedule_loop]
    · simp [schedule_loop, hk, ih, List.range'_succ]

theorem schedule_loop_sum_principal (M r : ℚ) :
    ∀ (remaining : ℕ), remaining ≠ 0 → ∀ (payment_num : ℕ) (bal : ℚ),
      ((schedule_loop M r payment_num bal remaining).map PaymentRecord.principal).sum
        = bal := by
  intro remaining
  induction remaining with
  | zero => intro h; exact absurd rfl h
  | succ k ih =>
    intro _ p b
    by_cases hk : k = 0
    · subst hk; simp [schedule_loop]
    · simp [schedule_loop, hk, ih hk]

theorem schedule_loop_get_last (M r : ℚ) :
    ∀ (remaining : ℕ), remaining ≠ 0 → ∀ (payment_num : ℕ) (bal : ℚ),
      ((schedule_loop M r payment_num bal remaining).get? (remaining - 1)).map
        PaymentRecord.remaining_balance = some 0 := by
  intro remaining
  induction remaining with
  | zero => intro h; exact absurd rfl h
  | succ k ih =>
    intro _ p b
    by_cases hk : k = 0
    · subst hk; simp [schedule_loop]
    · obtain ⟨j, rfl⟩ := Nat.exists_eq_succ_of_ne_zero hk
      simpa [schedule_loop] using ih (Nat.succ_ne_zero j) (p + 1) _

theorem schedule_loop_sum_interest (M r : ℚ) :
    ∀ (remaining : ℕ), remaining ≠ 0 → ∀ (payment_num : ℕ) (bal : ℚ),
      ((schedule_loop M r payment_num bal remaining).map PaymentRecord.interest).sum =
        (remaining : ℚ) * M - bal + bal_iter M r remaining bal := by
  intro remaining
  induction remaining with
  | zero => intro h; exact absurd rfl h
  | succ k ih =>
    intro _ p b
    by_cases hk : k = 0
    · subst hk; simp [schedule_loop, bal_iter]
    · simp only [schedule_loop, if_neg hk, List.map_cons, List.sum_cons, ih hk, bal_iter]
      push_cast
      ring

/-! Closed form and payoff of the running balance. -/

theorem bal_iter_eq (M r : ℚ) (hr : r ≠ 0) :
    ∀ (k : ℕ) (b : ℚ),
      bal_iter M r k b = b * (1 + r) ^ k - M * ((1 + r) ^ k - 1) / r := by
  intro k
  induction k with
  | zero => intro b; simp [bal_iter]
  | succ n ih =>
    intro b
    simp only [bal_iter]
    rw [ih]
    field_simp
    ring

theorem bal_iter_zero_rate (M : ℚ) :
    ∀ (k : ℕ) (b : ℚ), bal_iter M 0 k b = b - (k : ℚ) * M := by
  intro k
  induction k with
  | zero => intro b; simp [bal_iter]
  | succ n ih =>
    intro b
    simp only [bal_iter]
    rw [ih]
    push_cast
    ring

theorem annuity_payoff (P r : ℚ) (hr : 0 < r) (n : ℕ) (hn : n ≠ 0) :
    bal_iter (P * (r * (1 + r) ^ n) / ((1 + r) ^ n - 1)) r n P = 0 := by
  have hr0 : r ≠ 0 := ne_of_gt hr
  have h1 : (1 : ℚ) < (1 + r) ^ n := one_lt_pow₀ (by linarith) hn
  have h2 : (1 + r) ^ n - 1 ≠ 0 := sub_ne_zero.mpr (ne_of_gt h1)
  rw [bal_iter_eq _ _ hr0]
  field_simp
  ring

theorem linear_payoff (P : ℚ) (n : ℕ) (hn : n ≠ 0) :
    bal_iter (P / ((n : ℕ) : ℚ)) 0 n P = 0 := by
  rw [bal_iter_zero_rate]
  have h : ((n : ℕ) : ℚ) ≠ 0 := Nat.cast_ne_zero.mpr hn
  field_simp

/-! Characterizations of the monthly payment. -/

theorem calculate_monthly_payment_zero_rate (P : ℚ) (t : ℕ) :
    calculate_monthly_payment P 0 t = P / ((t * 12 : ℕ) : ℚ) := by
  simp [calculate_monthly_payment]

theorem calculate_monthly_payment_pos_rate (P rate : ℚ) (t : ℕ) (h : rate ≠ 0) :
    calculate_monthly_payment P rate t =
      P * (rate / 100 / 12 * (1 + rate / 100 / 12) ^ (t * 12)) /
        ((1 + rate / 100 / 12) ^ (t * 12) - 1) := by
  have h2 : rate / 100 / 12 ≠ 0 := by
    simp [div_eq_zero_iff, h]
  simp [calculate_monthly_payment, h2]

theorem generate_amortization_schedule_def (P rate : ℚ) (t : ℕ) :
    generate_amortization_schedule P rate t =
      schedule_loop (calculate_monthly_payment P rate t) (rate / 100 / 12) 1 P
        (t * 12) := rfl

end mortgage_calculator

open mortgage_calculator

/-- Claim C6: for every principal > 0 and positive integer term,
`calculate_monthly_payment(principal, 0, termYears)` equals
`principal / (termYears * 12)` exactly, and for every positive annual rate the
payment equals the annuity formula `principal * r(1+r)^n / ((1+r)^n - 1)` with
`r = annualRatePercent / 100 / 12` and `n = termYears * 12`. -/
theorem monthly_payment_zero_and_annuity (P : ℚ) (t : ℕ) (hP : 0 < P) (ht : 1 ≤ t) :
    calculate_monthly_payment P 0 t = P / ((t : ℚ) * 12) ∧
    ∀ rate : ℚ, 0 < rate →
      calculate_monthly_payment P rate t =
        P * (rate / 100 / 12 * (1 + rate / 100 / 12) ^ (t * 12)) /
          ((1 + rate / 100 / 12) ^ (t * 12) - 1) := by
  constructor
  · rw [calculate_monthly_payment_zero_rate]
    push_cast
    ring
  · intro rate h
    exact calculate_monthly_payment_pos_rate P rate t (ne_of_gt h)

/-- Witness for C6: the spec's concrete zero-rate example,
`monthlyPayment(100000, 0, 10) == 100000 / 120`. -/
theorem monthly_payment_zero_and_annuity_witness :
    calculate_monthly_payment 100000 0 10 = 100000 / 120 := by
  have h := (monthly_payment_zero_and_annuity (100000 : ℚ) 10 (by norm_num) (by norm_num)).1
  rw [h]; norm_num

/-- Claim C7: for every valid input (principal > 0, rate ≥ 0, positive integer
term), the generated schedule has exactly `termYears * 12` records, numbered
`1 .. numPayments` in order, the final record's remaining balance is exactly
`0`, and the principal portions sum exactly to the principal (the residual is
absorbed into the last principal portion). -/
theorem schedule_length_numbering_balance_sum (P rate : ℚ) (t : ℕ)
    (hP : 0 < P) (hr : 0 ≤ rate) (ht : 1 ≤ t) :
    (generate_amortization_schedule P rate t).length = t * 12 ∧
    (generate_amortization_schedule P rate t).map PaymentRecord.payment_num =
      List.range' 1 (t * 12) ∧
    (generate_amortization_schedule P rate t).getLast?.map
      PaymentRecord.remaining_balance = some 0 ∧
    ((generate_amortization_schedule P rate t).map PaymentRecord.principal).sum = P := by
  have hn : t * 12 ≠ 0 := by omega
  rw [generate_amortization_schedule_def]
  refine ⟨schedule_loop_length _ _ _ _ _, schedule_loop_map_payment_num _ _ _ _ _, ?_,
    schedule_loop_sum_principal _ _ _ hn _ _⟩
  rw [List.getLast?_eq_getElem?, schedule_loop_length]
  have h := schedule_loop_get_last (calculate_monthly_payment P rate t)
    (rate / 100 / 12) (t * 12) hn 1 P
  rwa [List.get?_eq_getElem?] at h

/-- Witness for C7 at principal 1200, rate 0, term 1 year. -/
theorem schedule_length_numbering_balance_sum_witness :
    (generate_amortization_schedule 1200 0 1).length = 1 * 12 ∧
    (generate_amortization_schedule 1200 0 1).map PaymentRecord.payment_num =
      List.range' 1 (1 * 12) ∧
    (generate_amortization_schedule 1200 0 1).getLast?.map
      PaymentRecord.remaining_balance = some 0 ∧
    ((generate_amortization_schedule 1200 0 1).map PaymentRecord.principal).sum = 1200 :=
  schedule_length_numbering_balance_sum 1200 0 1 (by norm_num) (by norm_num) (by norm_num)

/-- Claim C1: for every principal > 0, rate ≥ 0 and positive integer term,
`calculate_total_interest` — implemented as
`monthlyPayment * termYears * 12 - principal` — agrees exactly (in the exact
rational model) with the canonical schedule-sum definition of total interest,
the sum of the `interest` field over the generated schedule. -/
theorem total_interest_eq_schedule_sum (P rate : ℚ) (t : ℕ)
    (hP : 0 < P) (hr : 0 ≤ rate) (ht : 1 ≤ t) :
    calculate_total_interest P rate t = total_interest_schedule_sum P rate t := by
  have hn : t * 12 ≠ 0 := by omega
  unfold total_interest_schedule_sum
  rw [generate_amortization_schedule_def, schedule_loop_sum_interest _ _ _ hn _ _]
  rcases eq_or_lt_of_le hr with h0 | hpos
  · rw [← h0]
    have h012 : (0 : ℚ) / 100 / 12 = 0 := by norm_num
    rw [calculate_monthly_payment_zero_rate, h012, linear_payoff P (t * 12) hn]
    unfold calculate_total_interest
    rw [calculate_monthly_payment_zero_rate]
    push_cast
    ring
  · have hR : 0 < rate / 100 / 12 := by positivity
    rw [calculate_monthly_payment_pos_rate P rate t (ne_of_gt hpos),
      annuity_payoff P (rate / 100 / 12) hR (t * 12) hn]
    unfold calculate_total_interest
    rw [calculate_monthly_payment_pos_rate P rate t (ne_of_gt hpos)]
    push_cast
    ring

/-- Witness for C1 at principal 1200, rate 0, term 1 year. -/
theorem total_interest_eq_schedule_sum_witness :
    calculate_total_interest 1200 0 1 = total_interest_schedule_sum 1200 0 1 :=
  total_interest_eq_schedule_sum 1200 0 1 (by norm_num) (by norm_num) (by norm_num)

/-- Claim C2, amended: `calculate_equity_at_year` returns the down payment for
`year ≤ 0` and the property value only for `year` strictly greater than the
term; at `year = termYears` it goes through the schedule and returns
`downPayment + loanAmount` (down payment plus the fully repaid principal),
which coincides with the property value only when
`propertyValue = loanAmount + downPayment`. -/
theorem equity_at_year_cases (s : MortgageScenario) (year : ℤ) :
    (year ≤ 0 → s.calculate_equity_at_year year = some s.down_payment) ∧
    ((s.term_years : ℤ) < year → s.calculate_equity_at_year year = some s.property_value) ∧
    (year = (s.term_years : ℤ) → 1 ≤ s.term_years →
      s.calculate_equity_at_year year = some (s.down_payment + s.loan_amount)) := by
  refine ⟨?_, ?_, ?_⟩
  · intro h
    unfold MortgageScenario.calculate_equity_at_year
    rw [if_pos h]
  · intro h
    have h0 : ¬ year ≤ 0 := by omega
    unfold MortgageScenario.calculate_equity_at_year
    rw [if_neg h0, if_pos h]
  · intro hy ht
    subst hy
    have h0 : ¬ (s.term_years : ℤ) ≤ 0 := by omega
    have h1 : ¬ (s.term_years : ℤ) < (s.term_years : ℤ) := lt_irrefl _
    unfold MortgageScenario.calculate_equity_at_year
    rw [if_neg h0, if_neg h1]
    dsimp only
    rw [Int.toNat_natCast, generate_amortization_schedule_def, schedule_loop_length, min_self]
    have hn : s.term_years * 12 ≠ 0 := by omega
    have h := schedule_loop_get_last
      (calculate_monthly_payment s.loan_amount s.effective_rate s.term_years)
      (s.effective_rate / 100 / 12) (s.term_years * 12) hn 1 s.loan_amount
    obtain ⟨rec, hget, hrb⟩ := Option.map_eq_some'.mp h
    rw [hget]
    simp [hrb]

/-- Counterexample for C2 as stated: a scenario whose property value (999)
differs from loanAmount + downPayment (1200); at `year = termYears` the code
returns `downPayment + loanAmount = 1200`, not the property value. -/
theorem equity_at_term_year_ne_property_value :
    (MortgageScenario.mk "A" 1200 0 1 0 999 0 none).calculate_equity_at_year 1 ≠
      some (MortgageScenario.mk "A" 1200 0 1 0 999 0 none).property_value := by
  norm_num [MortgageScenario.calculate_equity_at_year, MortgageScenario.effective_rate,
    generate_amortization_schedule, calculate_monthly_payment, schedule_loop]

/-- Witness for C2 (amended), at the same scenario: the equity at the final
term year is `downPayment + loanAmount = 0 + 1200`. -/
theorem equity_at_year_cases_witness :
    (MortgageScenario.mk "A" 1200 0 1 0 999 0 none).calculate_equity_at_year 1 =
      some ((MortgageScenario.mk "A" 1200 0 1 0 999 0 none).down_payment +
        (MortgageScenario.mk "A" 1200 0 1 0 999 0 none).loan_amount) :=
  (equity_at_year_cases _ 1).2.2 (by norm_num) (by norm_num)

/-- Claim C10: for every scenario and integer year with
`0 < year ≤ termYears`, the schedule index `min(year * 12, numPayments) - 1`
used by `calculate_equity_at_year` is strictly below the schedule length (and
in `ℕ` it is trivially ≥ 0), so the lookup never goes out of bounds: the
equity computation returns a value (`isSome`), never the modelled
`IndexError`. -/
theorem equity_index_in_bounds (s : MortgageScenario) (year : ℤ)
    (h1 : 0 < year) (h2 : year ≤ (s.term_years : ℤ)) :
    min (year.toNat * 12)
        (generate_amortization_schedule s.loan_amount s.effective_rate
          s.term_years).length - 1 <
      (generate_amortization_schedule s.loan_amount s.effective_rate
        s.term_years).length ∧
    (s.calculate_equity_at_year year).isSome := by
  have hlen : (generate_amortization_schedule s.loan_amount s.effective_rate
      s.term_years).length = s.term_years * 12 := by
    rw [generate_amortization_schedule_def]
    exact schedule_loop_length _ _ _ _ _
  have hyn : 1 ≤ year.toNat := by omega
  have hterm : 1 ≤ s.term_years := by omega
  constructor
  · rw [hlen]
    omega
  · unfold MortgageScenario.calculate_equity_at_year
    rw [if_neg (by omega : ¬ year ≤ 0), if_neg (by omega : ¬ (s.term_years : ℤ) < year)]
    dsimp only
    rw [Option.isSome_map']
    have hidx : min (year.toNat * 12)
        (generate_amortization_schedule s.loan_amount s.effective_rate
          s.term_years).length - 1 <
        (generate_amortization_schedule s.loan_amount s.effective_rate
          s.term_years).length := by
      rw [hlen]; omega
    rw [List.get?_eq_get hidx]
    rfl

/-- Witness for C10 at a concrete scenario and year 1 (equal to the term). -/
theorem equity_index_in_bounds_witness :
    min ((1 : ℤ).toNat * 12)
        (generate_amortization_schedule
          (MortgageScenario.mk "A" 1200 0 1 0 999 0 none).loan_amount
          (MortgageScenario.mk "A" 1200 0 1 0 999 0 none).effective_rate
          (MortgageScenario.mk "A" 1200 0 1 0 999 0 none).term_years).length - 1 <
      (generate_amortization_schedule
        (MortgageScenario.mk "A" 1200 0 1 0 999 0 none).loan_amount
        (MortgageScenario.mk "A" 1200 0 1 0 999 0 none).effective_rate
        (MortgageScenario.mk "A" 1200 0 1 0 999 0 none).term_years).length ∧
    ((MortgageScenario.mk "A" 1200 0 1 0 999 0 none).calculate_equity_at_year 1).isSome :=
  equity_index_in_bounds _ 1 (by norm_num) (by norm_num)

/-- Claim C9: `calculate_break_even_point` returns the `None` sentinel when no
points were paid, the reduced rate is unset, or the reduced rate does not
strictly lower the nominal rate; otherwise, with
`monthlySavings = monthlyPayment(nominal) - monthlyPayment(reduced)`, it
returns `None` when the savings are ≤ 0 and
`pointsCost / monthlySavings` (with `pointsCost = pointsPaid/100 * loanAmount`)
when they are positive. -/
theorem points_break_even_cases (s : MortgageScenario) :
    ((s.points_paid = 0 ∨ s.reduced_rate = none ∨
        (∃ rr, s.reduced_rate = some rr ∧ s.interest_rate ≤ rr)) →
      s.calculate_break_even_point = none) ∧
    ∀ rr, s.reduced_rate = some rr → s.points_paid ≠ 0 → rr < s.interest_rate →
      (calculate_monthly_payment s.loan_amount s.interest_rate s.term_years -
          calculate_monthly_payment s.loan_amount rr s.term_years ≤ 0 →
        s.calculate_break_even_point = none) ∧
      (0 < calculate_monthly_payment s.loan_amount s.interest_rate s.term_years -
          calculate_monthly_payment s.loan_amount rr s.term_years →
        s.calculate_break_even_point =
          some (s.points_paid / 100 * s.loan_amount /
            (calculate_monthly_payment s.loan_amount s.interest_rate s.term_years -
              calculate_monthly_payment s.loan_amount rr s.term_years))) := by
  constructor
  · rintro (h | h | ⟨rr, hrr, hge⟩)
    · unfold MortgageScenario.calculate_break_even_point
      rw [if_pos h]
    · by_cases hp : s.points_paid = 0
      · unfold MortgageScenario.calculate_break_even_point
        rw [if_pos hp]
      · unfold MortgageScenario.calculate_break_even_point
        rw [if_neg hp, h]
    · by_cases hp : s.points_paid = 0
      · unfold MortgageScenario.calculate_break_even_point
        rw [if_pos hp]
      · unfold MortgageScenario.calculate_break_even_point
        rw [if_neg hp, hrr]
        dsimp only
        rw [if_pos hge]
  · intro rr hrr hp hlt
    unfold MortgageScenario.calculate_break_even_point
    rw [if_neg hp, hrr]
    dsimp only
    rw [if_neg (not_le.mpr hlt)]
    constructor
    · intro h
      rw [if_pos h]
    · intro h
      rw [if_neg (not_le.mpr h)]

/-- Witness for C9: paying 1 point to reduce a 1200% annual rate to 0% on a
1200-unit one-year loan gives points cost 12, positive monthly savings, and a
break-even of `12 / monthlySavings = 819/75095` months. -/
theorem points_break_even_cases_witness :
    (MortgageScenario.mk "A" 1200 1200 1 0 999 1 (some 0)).calculate_break_even_point =
      some (819 / 75095) := by
  have h := (points_break_even_cases (MortgageScenario.mk "A" 1200 1200 1 0 999 1 (some 0))).2
    0 rfl (by norm_num) (by norm_num)
  rw [h.2 (by norm_num [calculate_monthly_payment])]
  norm_num [calculate_monthly_payment]

/-- Claim C3, amended: `calculate_refinance_savings` sets `break_even_months`
to `closingCosts / monthlySavings` when `monthlySavings > 0`, and otherwise to
the literal floating-point infinity `float('inf')` (modelled by
`BreakEvenMonths.infinity`) — not to a non-numeric "no break-even" sentinel. -/
theorem refinance_break_even_formula (cp cr : ℚ) (ctr : ℕ) (nr : ℚ) (nt : ℕ) (cc : ℚ) :
    (0 < calculate_monthly_payment cp cr ctr - calculate_monthly_payment cp nr nt →
      (calculate_refinance_savings cp cr ctr nr nt cc).break_even_months =
        BreakEvenMonths.months
          (cc / (calculate_monthly_payment cp cr ctr - calculate_monthly_payment cp nr nt))) ∧
    (calculate_monthly_payment cp cr ctr - calculate_monthly_payment cp nr nt ≤ 0 →
      (calculate_refinance_savings cp cr ctr nr nt cc).break_even_months =
        BreakEvenMonths.infinity) := by
  unfold calculate_refinance_savings
  dsimp only
  constructor
  · intro h
    rw [if_pos h]
  · intro h
    rw [if_neg (not_lt.mpr h)]

/-- Counterexample for C3 as stated: refinancing a 0%-rate loan into an
identical 0%-rate loan has zero monthly savings, and the code stores the
literal floating-point infinity as `break_even_months` — not a non-numeric
sentinel distinct from the float domain. -/
theorem refinance_infinity_counterexample :
    (calculate_refinance_savings 100000 0 10 0 10 5000).break_even_months =
      BreakEvenMonths.infinity := by
  norm_num [calculate_refinance_savings, calculate_monthly_payment]

/-- Witness for C3 (amended): a refinance with positive monthly savings gets
the finite quotient `closingCosts / monthlySavings`. -/
theorem refinance_break_even_formula_witness :
    (calculate_refinance_savings 1200 1200 1 0 1 50).break_even_months =
      BreakEvenMonths.months
        (50 / (calculate_monthly_payment 1200 1200 1 - calculate_monthly_payment 1200 0 1)) :=
  (refinance_break_even_formula 1200 1200 1 0 1 50).1
    (by norm_num [calculate_monthly_payment])

/-- Claim C4, amended: `compare_scenarios` returns the ordinary dictionary
value `{"error": "No scenarios provided"}` exactly when the scenario list is
empty; no exception is raised anywhere in the function. -/
theorem compare_empty_returns_error_value (ss : List MortgageScenario) :
    mortgage_comparison.compare_scenarios ss =
      mortgage_comparison.ComparisonOutput.error "No scenarios provided" ↔ ss = [] := by
  constructor
  · intro h
    by_contra hne
    unfold mortgage_comparison.compare_scenarios at h
    rw [if_neg hne] at h
    exact mortgage_comparison.ComparisonOutput.noConfusion h
  · rintro rfl
    rfl

/-- Counterexample for C4 as stated: on the empty list the function returns
the ordinary result value `{"error": "No scenarios provided"}`; no
InvalidArgument failure is raised to the caller (nothing in
`compare_scenarios` raises). -/
theorem compare_empty_counterexample :
    mortgage_comparison.compare_scenarios [] =
      mortgage_comparison.ComparisonOutput.error "No scenarios provided" := rfl

/-- Claim C5, amended: `calculate_monthly_payment` performs no argument
validation and raises nothing: for an invalid input with principal ≤ 0
(at rate 0 and positive term) it simply returns the numeric formula value
`principal / (termYears * 12)` instead of failing with InvalidArgument. -/
theorem monthly_payment_no_validation (P : ℚ) (t : ℕ) (hP : P ≤ 0) (ht : 1 ≤ t) :
    calculate_monthly_payment P 0 t = P / ((t : ℚ) * 12) := by
  rw [calculate_monthly_payment_zero_rate]
  push_cast
  ring

/-- Counterexample for C5 as stated: the invalid input principal = -1200
(with rate 0, term 1) produces the ordinary numeric result -100; no error is
raised. -/
theorem monthly_payment_negative_principal_counterexample :
    calculate_monthly_payment (-1200) 0 1 = -100 := by
  norm_num [calculate_monthly_payment]

/-- Witness for C5 (amended) at principal 0, term 5 years. -/
theorem monthly_payment_no_validation_witness :
    calculate_monthly_payment 0 0 5 = 0 / ((5 : ℚ) * 12) :=
  monthly_payment_no_validation 0 5 (le_refl 0) (by norm_num)

/-- Claim C8: for every non-empty scenario list, `compare_scenarios` returns a
comparison whose `scenarios` names are exactly the input names in input order
(no sorting, no deduplication — duplicate names stay as distinct columns),
and each of the seven metric lists has length equal to the number of input
scenarios. -/
theorem compare_preserves_order_and_lengths (ss : List MortgageScenario) (h : ss ≠ []) :
    ∃ res, mortgage_comparison.compare_scenarios ss =
        mortgage_comparison.ComparisonOutput.ok res ∧
      res.scenarios = ss.map MortgageScenario.name ∧
      res.monthly_payment.length = ss.length ∧
      res.total_interest.length = ss.length ∧
      res.total_cost.length = ss.length ∧
      res.equity_5yr.length = ss.length ∧
      res.equity_10yr.length = ss.length ∧
      res.equity_15yr.length = ss.length ∧
      res.break_even_point.length = ss.length := by
  unfold mortgage_comparison.compare_scenarios
  rw [if_neg h]
  exact ⟨_, rfl, rfl, by simp, by simp, by simp, by simp, by simp, by simp, by simp⟩

/-- Witness for C8: two scenarios with the identical name "A" yield two
distinct columns, in input order. -/
theorem compare_preserves_order_and_lengths_witness :
    ([MortgageScenario.mk "A" 1200 0 1 0 1200 0 none,
      MortgageScenario.mk "A" 2400 0 2 0 2400 0 none] ≠ []) ∧
    ∃ res, mortgage_comparison.compare_scenarios
        [MortgageScenario.mk "A" 1200 0 1 0 1200 0 none,
         MortgageScenario.mk "A" 2400 0 2 0 2400 0 none] =
        mortgage_comparison.ComparisonOutput.ok res ∧
      res.scenarios = [MortgageScenario.mk "A" 1200 0 1 0 1200 0 none,
        MortgageScenario.mk "A" 2400 0 2 0 2400 0 none].map MortgageScenario.name ∧
      res.monthly_payment.length = 2 ∧
      res.total_interest.length = 2 ∧
      res.total_cost.length = 2 ∧
      res.equity_5yr.length = 2 ∧
      res.equity_10yr.length = 2 ∧
      res.equity_15yr.length = 2 ∧
      res.break_even_point.length = 2 :=
  ⟨by simp, compare_preserves_order_and_lengths _ (by simp)⟩
